import Mathlib

/-!
# Verification of the STM32 digital weigh scale firmware

Shallow embedding of `CODE/Final_WeighScale/Final_WeighScale.ino`.

Modelling conventions:
- The HX711 amplifier is a blocking stream of raw counts; we model it as a
  function `env : ℕ → ℤ` giving the value of the i-th `scale.read()` call,
  together with a cursor `readIdx` in the state.
- `millis()` is modelled by an explicit `currentTime` parameter per loop
  iteration (the code samples `millis()` once at the top of `loop`).
  The millis clock is monotone over the lifetimes considered, so the
  unsigned subtraction `currentTime - lastUpdateTime` is ℕ subtraction.
- C `float` arithmetic is modelled by exact rational arithmetic; the
  float-to-long conversion (C truncation toward zero) is `cTrunc`.
  All quantities the claims evaluate are exactly representable, so the
  idealisation is faithful at those points.
- Interrupt handlers only set the two flags.  Flag writes are modelled at
  iteration boundaries (`press`), plus a dedicated event `irqDuringWait`
  for the one place the code polls a flag in mid-action: the 5-second
  wait loop of `calibrateScale`.  `irqDuringWait = true` means some poll
  of that wait loop observed `resetPressed` as true.
-/

namespace WeighScale

/-- `TARE_SAMPLES` from the source: number of readings averaged. -/
def TARE_SAMPLES : ℕ := 10

/-- `KNOWN_WEIGHT` from the source: reference mass in grams. -/
def KNOWN_WEIGHT : ℚ := 200

/-- `RAW_0G` from the source: raw count at 0 grams. -/
def RAW_0G : ℤ := 16773520

/-- `RAW_100G` from the source: raw count at 100 grams. -/
def RAW_100G : ℤ := 16758735

/-- `WEIGHT_DIFFERENCE` from the source, in grams. -/
def WEIGHT_DIFFERENCE : ℚ := 100

/-- `COUNT_DIFFERENCE = RAW_0G - RAW_100G` from the source. -/
def COUNT_DIFFERENCE : ℤ := RAW_0G - RAW_100G

/-- `CALIBRATION_FACTOR = WEIGHT_DIFFERENCE / COUNT_DIFFERENCE` from the source. -/
def CALIBRATION_FACTOR : ℚ := WEIGHT_DIFFERENCE / (COUNT_DIFFERENCE : ℚ)

/-- `DISPLAY_UPDATE_INTERVAL` from the source, in milliseconds. -/
def DISPLAY_UPDATE_INTERVAL : ℕ := 1000

/-- The mutable state of the `Scale` object together with the two
volatile flags and the read cursor into the amplifier stream. -/
structure ScaleState where
  tare : ℤ
  lastUpdateTime : ℕ
  calibratePressed : Bool
  resetPressed : Bool
  readIdx : ℕ
  deriving Repr, DecidableEq

/-- C truncation toward zero of a rational, as used by a float-to-long
assignment. -/
def cTrunc (q : ℚ) : ℤ := if 0 ≤ q then ⌊q⌋ else ⌈q⌉

/-- Sum of `n` consecutive readings starting at stream position `idx`,
as accumulated by the `for` loops in `tareScale` and `calibrateScale`. -/
def sumReads (env : ℕ → ℤ) (idx : ℕ) : ℕ → ℤ
  | 0 => 0
  | n + 1 => sumReads env idx n + env (idx + n)

/-- The averaged raw reading `sum / TARE_SAMPLES` (C long division,
truncation toward zero). -/
def readAvg (env : ℕ → ℤ) (idx : ℕ) : ℤ :=
  Int.tdiv (sumReads env idx TARE_SAMPLES) (TARE_SAMPLES : ℤ)

/-- `Scale::tareScale`: average `TARE_SAMPLES` readings into `tare`. -/
def tareScale (env : ℕ → ℤ) (s : ScaleState) : ScaleState :=
  { s with tare := readAvg env s.readIdx, readIdx := s.readIdx + TARE_SAMPLES }

/-- `Scale::getWeight` value: `(float)(raw - tare) * CALIBRATION_FACTOR * (-1)`. -/
def getWeight (raw tare : ℤ) : ℚ :=
  ((raw - tare : ℤ) : ℚ) * CALIBRATION_FACTOR * (-1)

/-- `Scale::getWeight` as a step: reads one sample from the stream and
returns the computed weight together with the successor state. -/
def getWeightStep (env : ℕ → ℤ) (s : ScaleState) : ℚ × ScaleState :=
  (getWeight (env s.readIdx) s.tare, { s with readIdx := s.readIdx + 1 })

/-- `Scale::resetScale`: clear `tare` to zero, then re-run the tare
estimator (the LCD messages and delays have no effect on this state). -/
def resetScale (env : ℕ → ℤ) (s : ScaleState) : ScaleState :=
  tareScale env { s with tare := 0 }

/-- Observable actions of one loop iteration. -/
inductive Action
  | calibrate
  | reset
  | display
  deriving Repr, DecidableEq

/-- The new tare computed by `Scale::calibrateScale`:
`tare = raw_known_weight - (KNOWN_WEIGHT / CALIBRATION_FACTOR)`, with the
float result truncated on assignment to the `long` field. -/
def calibNewTare (rawKnown : ℤ) : ℤ :=
  cTrunc ((rawKnown : ℚ) - KNOWN_WEIGHT / CALIBRATION_FACTOR)

/-- `Scale::calibrateScale`.  `irqDuringWait` records whether any poll of
the 5-second wait loop observed `resetPressed` as true (either because it
was already set on entry or because the interrupt fired during the wait).
On that path the code runs `resetScale`, clears `resetPressed` and
returns; otherwise it averages `TARE_SAMPLES` readings and updates `tare`
by the calibration formula.  The returned list records which actions ran
inside the call. -/
def calibrateScale (env : ℕ → ℤ) (irqDuringWait : Bool) (s : ScaleState) :
    ScaleState × List Action :=
  if s.resetPressed || irqDuringWait then
    ({ resetScale env s with resetPressed := false }, [Action.reset])
  else
    ({ s with tare := calibNewTare (readAvg env s.readIdx),
              readIdx := s.readIdx + TARE_SAMPLES }, [])

/-- `Scale::updateDisplay`: reads the stream twice (once through
`getWeight`, once for the raw count shown on the LCD); no other state
field changes. -/
def updateDisplay (env : ℕ → ℤ) (s : ScaleState) : ScaleState :=
  { s with readIdx := s.readIdx + 2 }

/-- The part of `Scale::loop` after the calibrate branch: the reset
branch (which returns early, skipping the display check) followed by the
rate-limited display refresh.  `currentTime` is the value of `millis()`
sampled at the top of the iteration. -/
def loopRest (env : ℕ → ℤ) (currentTime : ℕ) (s1 : ScaleState)
    (acts1 : List Action) : ScaleState × List Action :=
  if s1.resetPressed then
    ({ resetScale env s1 with resetPressed := false }, acts1 ++ [Action.reset])
  else if DISPLAY_UPDATE_INTERVAL ≤ currentTime - s1.lastUpdateTime then
    (updateDisplay env { s1 with lastUpdateTime := currentTime },
      acts1 ++ [Action.display])
  else
    (s1, acts1)

/-- One iteration of `Scale::loop`: the calibrate branch (a plain `if`,
clearing `calibratePressed` after `calibrateScale` returns), then
`loopRest`. -/
def loopIter (env : ℕ → ℤ) (currentTime : ℕ) (irqDuringWait : Bool)
    (s : ScaleState) : ScaleState × List Action :=
  if s.calibratePressed then
    loopRest env currentTime
      { (calibrateScale env irqDuringWait s).1 with calibratePressed := false }
      (Action.calibrate :: (calibrateScale env irqDuringWait s).2)
  else
    loopRest env currentTime s []

/-- Interrupt delivery at an iteration boundary: `press = (c, r)` ORs the
calibrate and reset flags with the pending interrupt events. -/
def stepInput (press : Bool × Bool) (s : ScaleState) : ScaleState :=
  { s with calibratePressed := s.calibratePressed || press.1,
           resetPressed := s.resetPressed || press.2 }

/-- The state reached after `n` loop iterations. `times n` is the value of
`millis()` at the top of iteration `n`; `press n` the interrupts delivered
just before iteration `n`; `irqW n` the reset-interrupt event observable
inside iteration n-s calibration wait. -/
def run (env : ℕ → ℤ) (times : ℕ → ℕ) (press : ℕ → Bool × Bool)
    (irqW : ℕ → Bool) (s0 : ScaleState) : ℕ → ScaleState
  | 0 => s0
  | n + 1 =>
      (loopIter env (times n) (irqW n)
        (stepInput (press n) (run env times press irqW s0 n))).1

/-- The actions performed during iteration `n` of a run. -/
def iterActs (env : ℕ → ℤ) (times : ℕ → ℕ) (press : ℕ → Bool × Bool)
    (irqW : ℕ → Bool) (s0 : ScaleState) (n : ℕ) : List Action :=
  (loopIter env (times n) (irqW n)
    (stepInput (press n) (run env times press irqW s0 n))).2

/-- Iteration `n` performed a display refresh. -/
def firesAt (env : ℕ → ℤ) (times : ℕ → ℕ) (press : ℕ → Bool × Bool)
    (irqW : ℕ → Bool) (s0 : ScaleState) (n : ℕ) : Prop :=
  Action.display ∈ iterActs env times press irqW s0 n

instance (env times press irqW s0 n) :
    Decidable (firesAt env times press irqW s0 n) := by
  unfold firesAt
  infer_instance

/-- The state right after the constructor: both fields zero, flags down. -/
def initState : ScaleState :=
  { tare := 0, lastUpdateTime := 0, calibratePressed := false,
    resetPressed := false, readIdx := 0 }

/-- An all-zero amplifier stream, used for concrete evaluations. -/
def envZero : ℕ → ℤ := fun _ => 0

/-- A constant amplifier stream at the `RAW_100G` reference count. -/
def envRef : ℕ → ℤ := fun _ => RAW_100G

/-- A non-constant amplifier stream: 5 on the first read, 0 afterwards. -/
def envSkew : ℕ → ℤ := fun i => if i = 0 then 5 else 0

/-- The iteration clock is at or below a bound (used to locate the last
iteration inside a time window). -/
def timeLE (times : ℕ → ℕ) (bound j : ℕ) : Prop := times j ≤ bound

instance (times : ℕ → ℕ) (bound : ℕ) : DecidablePred (timeLE times bound) :=
  fun j => Nat.decLe (times j) bound

/-- A state with a pending calibrate request and a stale display timestamp. -/
def cStatePending : ScaleState :=
  { tare := 0, lastUpdateTime := 0, calibratePressed := true,
    resetPressed := false, readIdx := 0 }

/-- A state with both a calibrate and a reset request pending. -/
def cStateBoth : ScaleState :=
  { tare := 42, lastUpdateTime := 0, calibratePressed := true,
    resetPressed := true, readIdx := 0 }

/-- The per-iteration dispatch of `Scale::loop` as the code actually
performs it: the calibrate branch is a plain `if` (running the reset
inside `calibrateScale` when a reset was observable during the wait),
the loop-level reset branch returns early and so skips the display
check, and the display check compares the time sampled at the top of
the iteration against `lastUpdateTime`.  Written from the source to
state the amended form of the dispatch claim. -/
def dispatchActs (currentTime : ℕ) (irqDuringWait : Bool) (s : ScaleState) :
    List Action :=
  if s.calibratePressed then
    if s.resetPressed || irqDuringWait then
      Action.calibrate :: Action.reset ::
        (if DISPLAY_UPDATE_INTERVAL ≤ currentTime - s.lastUpdateTime then
          [Action.display] else [])
    else
      Action.calibrate ::
        (if DISPLAY_UPDATE_INTERVAL ≤ currentTime - s.lastUpdateTime then
          [Action.display] else [])
  else if s.resetPressed then
    [Action.reset]
  else if DISPLAY_UPDATE_INTERVAL ≤ currentTime - s.lastUpdateTime then
    [Action.display]
  else
    []

/-! ## Helper lemmas -/

/-- The quotient `KNOWN_WEIGHT / CALIBRATION_FACTOR` is the exact
integer 29570, so the float division and long conversion in
`calibrateScale` introduce no truncation at this value. -/
lemma known_over_factor : KNOWN_WEIGHT / CALIBRATION_FACTOR = (29570 : ℚ) := by
  norm_num [KNOWN_WEIGHT, CALIBRATION_FACTOR, WEIGHT_DIFFERENCE,
    COUNT_DIFFERENCE, RAW_0G, RAW_100G]

/-- C truncation is the identity on integers. -/
lemma cTrunc_intCast (n : ℤ) : cTrunc (n : ℚ) = n := by
  unfold cTrunc
  split <;> simp

/-- Closed form of the calibration tare update. -/
lemma calibNewTare_eq (r : ℤ) : calibNewTare r = r - 29570 := by
  have h2 : ((r : ℚ) - KNOWN_WEIGHT / CALIBRATION_FACTOR) = ((r - 29570 : ℤ) : ℚ) := by
    rw [known_over_factor]; push_cast; ring
  rw [calibNewTare, h2, cTrunc_intCast]

/-- The weight the scale reports at the calibration reading, right after
`calibrateScale` has set `tare` to that reading minus 29570. -/
lemma getWeight_after_calib (r : ℤ) : getWeight r (r - 29570) = -200 := by
  have h : ((r - (r - 29570) : ℤ) : ℚ) = 29570 := by push_cast; ring
  rw [getWeight, h]
  norm_num [CALIBRATION_FACTOR, WEIGHT_DIFFERENCE, COUNT_DIFFERENCE, RAW_0G, RAW_100G]

/-- Summing a constant stream. -/
lemma sumReads_const (env : ℕ → ℤ) (v : ℤ) (hconst : ∀ i, env i = v)
    (idx : ℕ) : ∀ n, sumReads env idx n = n * v := by
  intro n
  induction n with
  | zero => simp [sumReads]
  | succ m ih =>
      rw [sumReads, ih, hconst]
      push_cast
      ring

/-- Averaging a constant stream returns the constant exactly: the
truncating long division is exact on `10 * v`. -/
lemma readAvg_const (env : ℕ → ℤ) (v : ℤ) (hconst : ∀ i, env i = v)
    (idx : ℕ) : readAvg env idx = v := by
  rw [readAvg, sumReads_const env v hconst idx TARE_SAMPLES]
  show Int.tdiv ((10 : ℕ) * v) ((10 : ℕ) : ℤ) = v
  push_cast
  exact Int.mul_tdiv_cancel_left v (by norm_num)

/-- A loop iteration that starts with both flags down only performs the
rate-limited display refresh. -/
lemma loopIter_quiet (env : ℕ → ℤ) (t : ℕ) (irq : Bool) (s : ScaleState)
    (hc : s.calibratePressed = false) (hr : s.resetPressed = false) :
    loopIter env t irq s =
      if DISPLAY_UPDATE_INTERVAL ≤ t - s.lastUpdateTime then
        (updateDisplay env { s with lastUpdateTime := t }, [Action.display])
      else
        (s, []) := by
  unfold loopIter loopRest
  split_ifs <;> simp_all

/-- A loop iteration whose calibration is aborted by a reset leaves both
flags down and performs the calibrate entry, the reset, and possibly a
display refresh. -/
lemma loopIter_abort (env : ℕ → ℤ) (t : ℕ) (irq : Bool) (s : ScaleState)
    (hc : s.calibratePressed = true) (ha : (s.resetPressed || irq) = true) :
    (loopIter env t irq s).1.calibratePressed = false
    ∧ (loopIter env t irq s).1.resetPressed = false
    ∧ (loopIter env t irq s).2
        = Action.calibrate :: Action.reset ::
            (if DISPLAY_UPDATE_INTERVAL ≤ t - s.lastUpdateTime then
              [Action.display] else []) := by
  unfold loopIter loopRest calibrateScale resetScale tareScale updateDisplay
  split_ifs <;> simp_all

/-- Unfolding one step of `run`. -/
lemma run_succ (env : ℕ → ℤ) (times : ℕ → ℕ) (press : ℕ → Bool × Bool)
    (irqW : ℕ → Bool) (s0 : ScaleState) (k : ℕ) :
    run env times press irqW s0 (k + 1)
      = (loopIter env (times k) (irqW k)
          (stepInput (press k) (run env times press irqW s0 k))).1 := rfl

/-- Interrupt delivery does not touch the display timestamp. -/
lemma stepInput_lu (p : Bool × Bool) (s : ScaleState) :
    (stepInput p s).lastUpdateTime = s.lastUpdateTime := rfl

/-- Delivering no interrupt leaves the state unchanged. -/
lemma stepInput_none (s : ScaleState) : stepInput (false, false) s = s := by
  simp [stepInput]

/-- In every iteration, either the display refresh fires — then the
timestamp becomes the sampled time and the interval had elapsed — or it
does not fire and the timestamp is unchanged.  This holds on all paths,
including calibration and reset. -/
lemma loopIter_fire_cases (env : ℕ → ℤ) (t : ℕ) (irq : Bool)
    (s : ScaleState) :
    (Action.display ∈ (loopIter env t irq s).2
      ∧ (loopIter env t irq s).1.lastUpdateTime = t
      ∧ DISPLAY_UPDATE_INTERVAL ≤ t - s.lastUpdateTime)
    ∨ (Action.display ∉ (loopIter env t irq s).2
      ∧ (loopIter env t irq s).1.lastUpdateTime = s.lastUpdateTime) := by
  unfold loopIter loopRest calibrateScale resetScale tareScale updateDisplay
  split_ifs <;> simp_all

/-- `loopIter_fire_cases` transported along a run. -/
lemma run_fire_cases (env : ℕ → ℤ) (times : ℕ → ℕ)
    (press : ℕ → Bool × Bool) (irqW : ℕ → Bool) (s0 : ScaleState) (k : ℕ) :
    (firesAt env times press irqW s0 k
      ∧ (run env times press irqW s0 (k + 1)).lastUpdateTime = times k
      ∧ DISPLAY_UPDATE_INTERVAL
          ≤ times k - (run env times press irqW s0 k).lastUpdateTime)
    ∨ (¬ firesAt env times press irqW s0 k
      ∧ (run env times press irqW s0 (k + 1)).lastUpdateTime
          = (run env times press irqW s0 k).lastUpdateTime) := by
  have h := loopIter_fire_cases env (times k) (irqW k)
    (stepInput (press k) (run env times press irqW s0 k))
  rw [stepInput_lu] at h
  exact h

/-- The display timestamp never exceeds the sampled clock. -/
lemma run_lu_le (env : ℕ → ℤ) (times : ℕ → ℕ) (press : ℕ → Bool × Bool)
    (irqW : ℕ → Bool) (s0 : ScaleState)
    (hmono : ∀ k, times k ≤ times (k + 1))
    (h0 : s0.lastUpdateTime ≤ times 0) :
    ∀ k, (run env times press irqW s0 k).lastUpdateTime ≤ times k := by
  intro k
  induction k with
  | zero => exact h0
  | succ n ih =>
      rcases run_fire_cases env times press irqW s0 n with ⟨_, h, _⟩ | ⟨_, h⟩
      · rw [h]; exact hmono n
      · rw [h]; exact le_trans ih (hmono n)

/-- The display timestamp is nondecreasing along a run. -/
lemma run_lu_mono (env : ℕ → ℤ) (times : ℕ → ℕ) (press : ℕ → Bool × Bool)
    (irqW : ℕ → Bool) (s0 : ScaleState)
    (hmono : ∀ k, times k ≤ times (k + 1))
    (h0 : s0.lastUpdateTime ≤ times 0) :
    ∀ i j, i ≤ j →
      (run env times press irqW s0 i).lastUpdateTime
        ≤ (run env times press irqW s0 j).lastUpdateTime := by
  have hstep : ∀ k, (run env times press irqW s0 k).lastUpdateTime
      ≤ (run env times press irqW s0 (k + 1)).lastUpdateTime := by
    intro k
    rcases run_fire_cases env times press irqW s0 k with ⟨_, h, _⟩ | ⟨_, h⟩
    · rw [h]; exact run_lu_le env times press irqW s0 hmono h0 k
    · rw [h]
  intro i j hij
  exact monotone_nat_of_le_succ hstep hij

/-- In a run with no button presses starting with both flags down, the
flags stay down forever. -/
lemma run_flags (env : ℕ → ℤ) (times : ℕ → ℕ) (press : ℕ → Bool × Bool)
    (irqW : ℕ → Bool) (s0 : ScaleState)
    (hp : ∀ k, press k = (false, false))
    (hc : s0.calibratePressed = false) (hr : s0.resetPressed = false) :
    ∀ k, (run env times press irqW s0 k).calibratePressed = false
      ∧ (run env times press irqW s0 k).resetPressed = false := by
  intro k
  induction k with
  | zero => exact ⟨hc, hr⟩
  | succ n ih =>
      rw [run_succ, hp n, stepInput_none,
        loopIter_quiet env (times n) (irqW n) _ ih.1 ih.2]
      split <;> simp [updateDisplay, ih.1, ih.2]

/-- In a button-free run, the display fires exactly when the refresh
interval has elapsed since the stored timestamp. -/
lemma run_fires_iff (env : ℕ → ℤ) (times : ℕ → ℕ)
    (press : ℕ → Bool × Bool) (irqW : ℕ → Bool) (s0 : ScaleState)
    (hp : ∀ k, press k = (false, false))
    (hc : s0.calibratePressed = false) (hr : s0.resetPressed = false)
    (k : ℕ) :
    firesAt env times press irqW s0 k
      ↔ DISPLAY_UPDATE_INTERVAL
          ≤ times k - (run env times press irqW s0 k).lastUpdateTime := by
  have hf := run_flags env times press irqW s0 hp hc hr k
  unfold firesAt iterActs
  rw [hp k, stepInput_none,
    loopIter_quiet env (times k) (irqW k) _ hf.1 hf.2]
  split <;> simp_all

/-- After every iteration of a button-free run, less than a full refresh
interval has passed since the stored timestamp. -/
lemma run_fresh (env : ℕ → ℤ) (times : ℕ → ℕ) (press : ℕ → Bool × Bool)
    (irqW : ℕ → Bool) (s0 : ScaleState)
    (hp : ∀ k, press k = (false, false))
    (hc : s0.calibratePressed = false) (hr : s0.resetPressed = false)
    (hmono : ∀ k, times k ≤ times (k + 1))
    (h0 : s0.lastUpdateTime ≤ times 0) (k : ℕ) :
    times k < (run env times press irqW s0 (k + 1)).lastUpdateTime
      + DISPLAY_UPDATE_INTERVAL := by
  rcases run_fire_cases env times press irqW s0 k with ⟨_, h, _⟩ | ⟨hnf, h⟩
  · rw [h]
    have hD : 0 < DISPLAY_UPDATE_INTERVAL := by norm_num [DISPLAY_UPDATE_INTERVAL]
    omega
  · rw [h]
    have hni : ¬ (DISPLAY_UPDATE_INTERVAL
        ≤ times k - (run env times press irqW s0 k).lastUpdateTime) := by
      rw [← run_fires_iff env times press irqW s0 hp hc hr k]
      exact hnf
    have hle := run_lu_le env times press irqW s0 hmono h0 k
    omega

/-- Any nonzero display timestamp reached along a run originates from an
actual display refresh at that time (or is the initial timestamp). -/
lemma run_origin (env : ℕ → ℤ) (times : ℕ → ℕ) (press : ℕ → Bool × Bool)
    (irqW : ℕ → Bool) (s0 : ScaleState) :
    ∀ k, (run env times press irqW s0 k).lastUpdateTime = s0.lastUpdateTime
      ∨ ∃ j, j < k ∧ firesAt env times press irqW s0 j
          ∧ times j = (run env times press irqW s0 k).lastUpdateTime := by
  intro k
  induction k with
  | zero => left; rfl
  | succ n ih =>
      rcases run_fire_cases env times press irqW s0 n with ⟨hf, h, _⟩ | ⟨_, h⟩
      · right; exact ⟨n, Nat.lt_succ_self n, hf, by rw [h]⟩
      · rw [h]
        rcases ih with h' | ⟨j, hj, hfj, ht⟩
        · left; exact h'
        · right; exact ⟨j, Nat.lt_succ_of_lt hj, hfj, ht⟩

/-! ## Claims -/

/-- C1: for every raw reading `r` and tare value `t`,
`getWeight r t = -(r - t) * CALIBRATION_FACTOR`, and at the literal
reference point `r = RAW_100G`, `t = RAW_0G` with the source constants
the result is exactly 100 (the rational model of the float arithmetic). -/
theorem C1_weight_formula :
    (∀ r t : ℤ, getWeight r t = -(((r : ℚ) - (t : ℚ)) * CALIBRATION_FACTOR))
    ∧ getWeight RAW_100G RAW_0G = 100 := by
  constructor
  · intro r t
    rw [getWeight]
    push_cast
    ring
  · norm_num [getWeight, CALIBRATION_FACTOR, WEIGHT_DIFFERENCE,
      COUNT_DIFFERENCE, RAW_0G, RAW_100G]

/-- C2 counterexample: running the calibration action (no reset) on a
constant stream at the reference reading sets `tare` so that the weight
reported at the averaged known-weight reading is `-200`, not the known
reference mass `200`. -/
theorem C2_calibration_sign_counterexample :
    getWeight (readAvg envRef cStatePending.readIdx)
        (calibrateScale envRef false cStatePending).1.tare = -200
    ∧ (-200 : ℚ) ≠ KNOWN_WEIGHT := by
  have h1 : readAvg envRef cStatePending.readIdx = RAW_100G := by decide
  have h2 : (calibrateScale envRef false cStatePending).1.tare
      = calibNewTare (readAvg envRef cStatePending.readIdx) := rfl
  constructor
  · rw [h2, h1, calibNewTare_eq, getWeight_after_calib]
  · norm_num [KNOWN_WEIGHT]

/-- C2 amended: after an unaborted calibration, the new tare offset is
`raw_known - (KNOWN_WEIGHT / CALIBRATION_FACTOR)` (with the C truncation
of the float quotient, which is exact here), where `raw_known` is the
truncated average of 10 readings; consequently `getWeight` at `raw_known`
reports the negation of the known reference mass, `-200`, not `200`. -/
theorem C2_calibration_tare_amended (env : ℕ → ℤ) (s : ScaleState)
    (h : s.resetPressed = false) :
    (calibrateScale env false s).1.tare
      = readAvg env s.readIdx - cTrunc (KNOWN_WEIGHT / CALIBRATION_FACTOR)
    ∧ getWeight (readAvg env s.readIdx) (calibrateScale env false s).1.tare
      = -KNOWN_WEIGHT := by
  have hq : cTrunc (KNOWN_WEIGHT / CALIBRATION_FACTOR) = 29570 := by
    rw [known_over_factor]
    have h29 : ((29570 : ℤ) : ℚ) = (29570 : ℚ) := by push_cast; ring
    rw [← h29, cTrunc_intCast]
  have htare : (calibrateScale env false s).1.tare
      = calibNewTare (readAvg env s.readIdx) := by
    simp [calibrateScale, h]
  constructor
  · rw [htare, calibNewTare_eq, hq]
  · rw [htare, calibNewTare_eq, getWeight_after_calib]
    norm_num [KNOWN_WEIGHT]

/-- C2 witness: the amended statement instantiated on the all-zero
stream from the initial state. -/
theorem C2_calibration_tare_amended_witness :
    initState.resetPressed = false
    ∧ ((calibrateScale envZero false initState).1.tare
        = readAvg envZero initState.readIdx
          - cTrunc (KNOWN_WEIGHT / CALIBRATION_FACTOR)
      ∧ getWeight (readAvg envZero initState.readIdx)
          (calibrateScale envZero false initState).1.tare = -KNOWN_WEIGHT) :=
  ⟨rfl, C2_calibration_tare_amended envZero initState rfl⟩

/-- C3: if a reset was observable during the calibration wait (either
pending on entry or raised by the interrupt while waiting), the
calibration action does not apply the calibration tare update: it runs
the reset action instead, so the resulting tare is the re-estimated
average of the next 10 readings, the reset flag is consumed, and the only
action performed is the reset. -/
theorem C3_reset_preempts_calibration (env : ℕ → ℤ) (irq : Bool)
    (s : ScaleState) (h : (s.resetPressed || irq) = true) :
    (calibrateScale env irq s).1.tare = readAvg env s.readIdx
    ∧ (calibrateScale env irq s).1.resetPressed = false
    ∧ (calibrateScale env irq s).2 = [Action.reset] := by
  refine ⟨?_, ?_, ?_⟩ <;> simp [calibrateScale, h, resetScale, tareScale]

/-- C3 witness: a state with both buttons pending, on the all-zero
stream. -/
theorem C3_reset_preempts_calibration_witness :
    (cStateBoth.resetPressed || false) = true
    ∧ ((calibrateScale envZero false cStateBoth).1.tare
        = readAvg envZero cStateBoth.readIdx
      ∧ (calibrateScale envZero false cStateBoth).1.resetPressed = false
      ∧ (calibrateScale envZero false cStateBoth).2 = [Action.reset]) :=
  ⟨rfl, C3_reset_preempts_calibration envZero false cStateBoth rfl⟩

/-- C4 counterexample: on a non-constant stream summing to 5 the tare
estimator stores 0 (the truncated long division `5 / 10`), not the
arithmetic mean `1/2` of the 10 readings. -/
theorem C4_tare_mean_counterexample :
    ((tareScale envSkew initState).tare : ℚ)
      ≠ ((sumReads envSkew initState.readIdx TARE_SAMPLES : ℤ) : ℚ)
          / (TARE_SAMPLES : ℚ) := by
  have h1 : (tareScale envSkew initState).tare = 0 := by decide
  have h2 : sumReads envSkew initState.readIdx TARE_SAMPLES = 5 := by decide
  rw [h1, h2]
  norm_num [TARE_SAMPLES]

/-- C4 amended: for every sequence of readings, the tare estimator
stores the C-truncated integer quotient of the sum of 10 consecutive
readings by 10 (the arithmetic mean rounded toward zero), not the exact
arithmetic mean; when every sampled read returns the same value `v` the
stored tare equals `v` exactly. -/
theorem C4_tare_estimator_amended (env : ℕ → ℤ) (s : ScaleState) (v : ℤ)
    (hconst : ∀ i, env i = v) :
    (∀ (env' : ℕ → ℤ) (s' : ScaleState),
      (tareScale env' s').tare
        = Int.tdiv (sumReads env' s'.readIdx TARE_SAMPLES) (TARE_SAMPLES : ℤ))
    ∧ (tareScale env s).tare = v := by
  refine ⟨fun env' s' => rfl, ?_⟩
  show readAvg env s.readIdx = v
  exact readAvg_const env v hconst s.readIdx

/-- C4 witness: the amended statement on the all-zero stream. -/
theorem C4_tare_estimator_amended_witness :
    (∀ i, envZero i = 0)
    ∧ ((∀ (env' : ℕ → ℤ) (s' : ScaleState),
        (tareScale env' s').tare
          = Int.tdiv (sumReads env' s'.readIdx TARE_SAMPLES)
              (TARE_SAMPLES : ℤ))
      ∧ (tareScale envZero initState).tare = 0) :=
  ⟨fun _ => rfl, C4_tare_estimator_amended envZero initState 0 (fun _ => rfl)⟩

/-- C5: the reset action zeroes `tare` and then re-runs the tare
estimator, so the resulting tare is the average of the next 10 readings;
when the no-load readings are a constant `v`, the weight computed at the
current no-load raw reading `v` is exactly 0. -/
theorem C5_reset_rezeroes (env : ℕ → ℤ) (s : ScaleState) (v : ℤ)
    (hconst : ∀ i, env i = v) :
    (resetScale env s).tare = readAvg env s.readIdx
    ∧ getWeight v (resetScale env s).tare = 0 := by
  refine ⟨rfl, ?_⟩
  have h : (resetScale env s).tare = v := by
    show readAvg env s.readIdx = v
    exact readAvg_const env v hconst s.readIdx
  rw [h, getWeight]
  simp

/-- C5 witness: reset on the all-zero stream. -/
theorem C5_reset_rezeroes_witness :
    (∀ i, envZero i = 0)
    ∧ ((resetScale envZero initState).tare = readAvg envZero initState.readIdx
      ∧ getWeight 0 (resetScale envZero initState).tare = 0) :=
  ⟨fun _ => rfl, C5_reset_rezeroes envZero initState 0 (fun _ => rfl)⟩

/-- C8: the weight computation has no side effect on the scale state
beyond consuming one amplifier sample: `tare`, `lastUpdateTime` and both
button flags are unchanged, and two calls that see the same raw reading
and the same tare return the same value. -/
theorem C8_getWeight_pure (env env2 : ℕ → ℤ) (s s2 : ScaleState)
    (hraw : env s.readIdx = env2 s2.readIdx) (htare : s.tare = s2.tare) :
    (getWeightStep env s).2.tare = s.tare
    ∧ (getWeightStep env s).2.lastUpdateTime = s.lastUpdateTime
    ∧ (getWeightStep env s).2.calibratePressed = s.calibratePressed
    ∧ (getWeightStep env s).2.resetPressed = s.resetPressed
    ∧ (getWeightStep env s).1 = (getWeightStep env2 s2).1 := by
  refine ⟨rfl, rfl, rfl, rfl, ?_⟩
  simp [getWeightStep, hraw, htare]

/-- C8 witness: two identical calls on the all-zero stream. -/
theorem C8_getWeight_pure_witness :
    envZero initState.readIdx = envZero initState.readIdx
    ∧ initState.tare = initState.tare
    ∧ ((getWeightStep envZero initState).2.tare = initState.tare
      ∧ (getWeightStep envZero initState).2.lastUpdateTime
          = initState.lastUpdateTime
      ∧ (getWeightStep envZero initState).2.calibratePressed
          = initState.calibratePressed
      ∧ (getWeightStep envZero initState).2.resetPressed
          = initState.resetPressed
      ∧ (getWeightStep envZero initState).1
          = (getWeightStep envZero initState).1) :=
  ⟨rfl, rfl, C8_getWeight_pure envZero envZero initState initState rfl rfl⟩

/-- C6 counterexample: an iteration that starts with the calibrate flag
set and a stale display timestamp runs both the calibration action and
the display refresh, so the three branches of `loop` are not a mutually
exclusive `else if` chain. -/
theorem C6_loop_dispatch_counterexample :
    Action.calibrate ∈ (loopIter envZero 5000 false cStatePending).2
    ∧ Action.display ∈ (loopIter envZero 5000 false cStatePending).2 := by
  decide

/-- C6 amended: each iteration of `loop` performs exactly the actions of
`dispatchActs`: the calibration action if the calibrate flag is set
(with the reset action folded in when a reset was observable during its
wait), then — as a separate `if`, not an `else` — the loop-level reset
action if the reset flag is still set (which skips the display check),
then the display refresh if the refresh interval has elapsed relative to
the time sampled at the top of the iteration.  Only the reset branch
skips the rest of the iteration; an iteration that runs calibration can
also run the display refresh. -/
theorem C6_loop_dispatch_amended (env : ℕ → ℤ) (t : ℕ) (irq : Bool)
    (s : ScaleState) : (loopIter env t irq s).2 = dispatchActs t irq s := by
  unfold loopIter loopRest calibrateScale dispatchActs resetScale tareScale
    updateDisplay
  split_ifs <;> simp_all

/-- C9: any loop iteration that enters the calibration action leaves the
calibrate flag cleared, on the completed path and on the
aborted-by-reset path alike. -/
theorem C9_calibrate_flag_cleared (env : ℕ → ℤ) (t : ℕ) (irq : Bool)
    (s : ScaleState) (h : s.calibratePressed = true) :
    (loopIter env t irq s).1.calibratePressed = false := by
  unfold loopIter loopRest calibrateScale resetScale tareScale updateDisplay
  split_ifs <;> simp_all

/-- C9 witness: an iteration entered with the calibrate flag set. -/
theorem C9_calibrate_flag_cleared_witness :
    cStatePending.calibratePressed = true
    ∧ (loopIter envZero 5000 false cStatePending).1.calibratePressed = false :=
  ⟨rfl, C9_calibrate_flag_cleared envZero 5000 false cStatePending rfl⟩

/-- C10: a reset request is serviced exactly once.  In any iteration the
reset action runs at most once; when the reset flag is consumed inside
the calibration wait, that iteration performs exactly one reset, leaves
the reset flag cleared, and the following iteration (with no new
interrupt) performs no reset at all. -/
theorem C10_reset_serviced_once (env : ℕ → ℤ) (t t2 : ℕ) (irq : Bool)
    (s : ScaleState) (hcal : s.calibratePressed = true)
    (habort : (s.resetPressed || irq) = true) :
    (∀ (env' : ℕ → ℤ) (t' : ℕ) (irq' : Bool) (s' : ScaleState),
      ((loopIter env' t' irq' s').2.count Action.reset) ≤ 1)
    ∧ (loopIter env t irq s).2.count Action.reset = 1
    ∧ (loopIter env t irq s).1.resetPressed = false
    ∧ (loopIter env t2 false (loopIter env t irq s).1).2.count
        Action.reset = 0 := by
  obtain ⟨h1, h2, h3⟩ := loopIter_abort env t irq s hcal habort
  refine ⟨?_, ?_, h2, ?_⟩
  · intro env' t' irq' s'
    unfold loopIter loopRest calibrateScale resetScale tareScale updateDisplay
    split_ifs <;> simp_all
  · rw [h3]
    split <;> decide
  · rw [loopIter_quiet env t2 false (loopIter env t irq s).1 h1 h2]
    split <;> simp

/-- C10 witness: both buttons pending at the start of the iteration, so
the reset is consumed inside the calibration wait. -/
theorem C10_reset_serviced_once_witness :
    cStateBoth.calibratePressed = true
    ∧ (cStateBoth.resetPressed || false) = true
    ∧ ((∀ (env' : ℕ → ℤ) (t' : ℕ) (irq' : Bool) (s' : ScaleState),
        ((loopIter env' t' irq' s').2.count Action.reset) ≤ 1)
      ∧ (loopIter envZero 0 false cStateBoth).2.count Action.reset = 1
      ∧ (loopIter envZero 0 false cStateBoth).1.resetPressed = false
      ∧ (loopIter envZero 9999 false (loopIter envZero 0 false cStateBoth).1).2.count
          Action.reset = 0) :=
  ⟨rfl, rfl, C10_reset_serviced_once envZero 0 9999 false cStateBoth rfl rfl⟩

/-- C7: over any execution of the control loop with a monotone millis
clock that advances by at most 1 ms per iteration (the loop body is
cooperative and fast) and whose first iteration happens at least one
refresh interval after boot, the display refresh fires at most once per
1000 ms of wall-clock time — for arbitrary button presses — and, when no
button is ever pressed, it fires at least once in every 1000 ms window
covered by the execution. -/
theorem C7_display_refresh_rate (env : ℕ → ℤ) (times : ℕ → ℕ)
    (irqW : ℕ → Bool) (s0 : ScaleState)
    (hmono : ∀ k, times k ≤ times (k + 1))
    (hdense : ∀ k, times (k + 1) ≤ times k + 1)
    (hc : s0.calibratePressed = false) (hr : s0.resetPressed = false)
    (hboot : s0.lastUpdateTime + DISPLAY_UPDATE_INTERVAL ≤ times 0) :
    (∀ (press : ℕ → Bool × Bool) (i j : ℕ), i < j →
      firesAt env times press irqW s0 i → firesAt env times press irqW s0 j →
      times i + DISPLAY_UPDATE_INTERVAL ≤ times j)
    ∧ (∀ T k, times 0 ≤ T → T + DISPLAY_UPDATE_INTERVAL ≤ times k →
      ∃ j, j ≤ k ∧ firesAt env times (fun _ => (false, false)) irqW s0 j
        ∧ T ≤ times j ∧ times j < T + DISPLAY_UPDATE_INTERVAL) := by
  have hD : DISPLAY_UPDATE_INTERVAL = 1000 := rfl
  have h0 : s0.lastUpdateTime ≤ times 0 := by omega
  constructor
  · intro press i j hij hfi hfj
    rcases run_fire_cases env times press irqW s0 i with ⟨_, hlu, _⟩ | ⟨hnf, _⟩
    · rcases run_fire_cases env times press irqW s0 j with ⟨_, _, hcond⟩ | ⟨hnf, _⟩
      · have hm : (run env times press irqW s0 (i + 1)).lastUpdateTime
            ≤ (run env times press irqW s0 j).lastUpdateTime :=
          run_lu_mono env times press irqW s0 hmono h0 (i + 1) j hij
        have hle := run_lu_le env times press irqW s0 hmono h0 j
        omega
      · exact absurd hfj hnf
    · exact absurd hfi hnf
  · intro T k hT hTk
    rw [hD] at hTk
    have hp : ∀ n, (fun (_ : ℕ) => ((false : Bool), (false : Bool))) n
        = (false, false) := fun _ => rfl
    have hP0 : timeLE times (T + 999) 0 := by
      unfold timeLE; omega
    have hPk : ¬ timeLE times (T + 999) k := by
      unfold timeLE; omega
    have hPj : timeLE times (T + 999)
        (Nat.findGreatest (timeLE times (T + 999)) k) :=
      Nat.findGreatest_spec (Nat.zero_le k) hP0
    have hjle : Nat.findGreatest (timeLE times (T + 999)) k ≤ k :=
      Nat.findGreatest_le k
    have hjk : Nat.findGreatest (timeLE times (T + 999)) k < k := by
      rcases lt_or_eq_of_le hjle with h | h
      · exact h
      · exact absurd (h ▸ hPj) hPk
    have hnP : ¬ timeLE times (T + 999)
        (Nat.findGreatest (timeLE times (T + 999)) k + 1) :=
      Nat.findGreatest_is_greatest (Nat.lt_succ_self _) hjk
    have hPj' : times (Nat.findGreatest (timeLE times (T + 999)) k)
        ≤ T + 999 := hPj
    have hnP' : ¬ times (Nat.findGreatest (timeLE times (T + 999)) k + 1)
        ≤ T + 999 := hnP
    have hd := hdense (Nat.findGreatest (timeLE times (T + 999)) k)
    have h3 : times (Nat.findGreatest (timeLE times (T + 999)) k)
        = T + 999 := by omega
    have h4 := run_fresh env times (fun _ => (false, false)) irqW s0 hp hc hr
      hmono h0 (Nat.findGreatest (timeLE times (T + 999)) k)
    rw [hD] at h4
    rcases run_origin env times (fun _ => (false, false)) irqW s0
        (Nat.findGreatest (timeLE times (T + 999)) k + 1) with
      horig | ⟨i, hik, hfi, hti⟩
    · rw [horig] at h4
      omega
    · refine ⟨i, by omega, hfi, by omega, ?_⟩
      have hmi : times i
          ≤ times (Nat.findGreatest (timeLE times (T + 999)) k) :=
        monotone_nat_of_le_succ hmono (by omega)
      omega

/-- C7 witness: the clock that ticks once per millisecond starting at
1000, with no buttons, from the constructor state. -/
theorem C7_display_refresh_rate_witness :
    (∀ k, 1000 + k ≤ 1000 + (k + 1))
    ∧ (∀ k, 1000 + (k + 1) ≤ (1000 + k) + 1)
    ∧ initState.calibratePressed = false
    ∧ initState.resetPressed = false
    ∧ initState.lastUpdateTime + DISPLAY_UPDATE_INTERVAL ≤ 1000 + 0
    ∧ ((∀ (press : ℕ → Bool × Bool) (i j : ℕ), i < j →
        firesAt envZero (fun n => 1000 + n) press (fun _ => false) initState i →
        firesAt envZero (fun n => 1000 + n) press (fun _ => false) initState j →
        (1000 + i) + DISPLAY_UPDATE_INTERVAL ≤ 1000 + j)
      ∧ (∀ T k, 1000 + 0 ≤ T → T + DISPLAY_UPDATE_INTERVAL ≤ 1000 + k →
        ∃ j, j ≤ k
          ∧ firesAt envZero (fun n => 1000 + n) (fun _ => (false, false))
              (fun _ => false) initState j
          ∧ T ≤ 1000 + j ∧ 1000 + j < T + DISPLAY_UPDATE_INTERVAL)) :=
  ⟨fun _ => by omega, fun _ => by omega, rfl, rfl, by decide,
    C7_display_refresh_rate envZero (fun n => 1000 + n) (fun _ => false)
      initState
      (fun k => by show 1000 + k ≤ 1000 + (k + 1); omega)
      (fun k => by show 1000 + (k + 1) ≤ (1000 + k) + 1; omega)
      rfl rfl (by decide)⟩

end WeighScale
